import Mathlib

/-!
Verification of the neshan-rs client library (`src/lib.rs`): a shallow
embedding of its data model, query construction and response handling,
with theorems settling the specification claims.

Floating-point values are not embedded: geographic coordinates are
modelled by their rendered decimal strings (the output of Rust's `{}`
formatting of an `f64`), and JSON numeric literals are modelled as
integers, since none of the claims depend on float arithmetic.
-/

namespace Neshan

/-- JSON values as consumed by the serde-based decoders of the client.
Numeric literals are modelled as integers. -/
inductive Json where
  | null : Json
  | bool : Bool → Json
  | num : Int → Json
  | str : String → Json
  | arr : List Json → Json
  | obj : List (String × Json) → Json

/-- Rust struct `Error { code: i32, message: String }`, the service error
payload.  The i32 range of `code` is enforced by the decoder. -/
structure Error where
  code : Int
  message : String
  deriving DecidableEq

/-- Rust impl `fmt::Display for Error`: writes only `self.message`. -/
def Error.display (e : Error) : String := e.message

/-- Rust impl `fmt::Debug for Error`: writes
`AppError \x7b code: <code>, message: <message> \x7d`. -/
def Error.debugFmt (e : Error) : String :=
  "AppError \x7b code: " ++ toString e.code ++ ", message: " ++ e.message ++ " \x7d"

/-- Rust struct `Point { longitude: f64, latitude: f64 }`.  Each coordinate
is modelled by its rendered decimal string (what Rust's `{}` format of the
`f64` produces), since the claims concern only how rendered coordinates are
assembled into query parameters. -/
structure Point where
  longitude : String
  latitude : String

/-- Rust enum `Type { Car, Motorcycle }` (named `VehicleType` here because
`Type` is reserved in Lean). -/
inductive VehicleType where
  | Car : VehicleType
  | Motorcycle : VehicleType
  deriving DecidableEq

/-- Rust impl `fmt::Display for Type`: an exhaustive match with no default
arm, `Car` to `"car"` and `Motorcycle` to `"motorcycle"`. -/
def VehicleType.toStr : VehicleType → String
  | VehicleType.Car => "car"
  | VehicleType.Motorcycle => "motorcycle"

/-- Rust struct `Duration { value: f64, text: String }`; `value` modelled
as an integer (see module comment). -/
structure Duration where
  value : Int
  text : String
  deriving DecidableEq

/-- Rust struct `Distance { value: f64, text: String }`; `value` modelled
as an integer (see module comment). -/
structure Distance where
  value : Int
  text : String
  deriving DecidableEq

/-- Rust struct `Leg { summary, duration, distance }`. -/
structure Leg where
  summary : String
  duration : Duration
  distance : Distance
  deriving DecidableEq

/-- Rust struct `Route { legs: Vec<Leg> }`. -/
structure Route where
  legs : List Leg
  deriving DecidableEq

/-- Rust struct `Routes { routes: Vec<Route> }`. -/
structure Routes where
  routes : List Route
  deriving DecidableEq

/-- Rust struct `PostalAddress`: required string fields, three
`Option<String>` fields and two booleans. -/
structure PostalAddress where
  formatted_address : String
  route_name : String
  neighbourhood : Option String
  city : String
  state : String
  place : Option String
  municipality_zone : Option String
  in_traffic_zone : Bool
  in_odd_even_zone : Bool
  deriving DecidableEq

/-- Rust `bool` rendered through `to_string()`: literal `"true"` / `"false"`. -/
def boolStr (b : Bool) : String := if b then "true" else "false"

/-- The query-parameter list built by `Client::route` (src/lib.rs,
the `.query(&[...])` call), in source order.  The source spells the fifth
key `avoid_odd_event_zone` (note `event`, not `even`). -/
def routeQuery (vehicle : VehicleType) (origin destination : Point)
    (avoid_traffic_zone avoid_odd_even_zone alternative_paths : Bool) :
    List (String × String) :=
  [ ("type", vehicle.toStr),
    ("origin", origin.latitude ++ "," ++ origin.longitude),
    ("destination", destination.latitude ++ "," ++ destination.longitude),
    ("avoid_traffic_zone", boolStr avoid_traffic_zone),
    ("avoid_odd_event_zone", boolStr avoid_odd_even_zone),
    ("alternative", boolStr alternative_paths) ]

/-- The query-parameter list built by `Client::reverse_geocode`. -/
def reverseGeocodeQuery (point : Point) : List (String × String) :=
  [ ("lat", point.latitude), ("lng", point.longitude) ]

/-- Field lookup in a JSON object, first occurrence wins (serde reads the
fields in order; the claims do not involve duplicate keys). -/
def getField : List (String × Json) → String → Option Json
  | [], _ => none
  | (k, v) :: rest, key => if k = key then some v else getField rest key

/-- serde `String` field: must be present and a JSON string. -/
def asStr : Option Json → Option String
  | some (Json.str s) => some s
  | _ => none

/-- serde `Option<String>` field: absent or `null` decodes to `none`,
a string to `some`, anything else is a decode failure. -/
def asOptStr : Option Json → Option (Option String)
  | none => some none
  | some Json.null => some none
  | some (Json.str s) => some (some s)
  | _ => none

/-- serde `bool` field: must be present and a JSON boolean. -/
def asBool : Option Json → Option Bool
  | some (Json.bool b) => some b
  | _ => none

/-- serde numeric field (`f64` in the source, integral in this model). -/
def asNum : Option Json → Option Int
  | some (Json.num n) => some n
  | _ => none

/-- serde `i32` field: a number within the i32 range. -/
def asI32 : Option Json → Option Int
  | some (Json.num n) => if -(2 ^ 31) ≤ n ∧ n < 2 ^ 31 then some n else none
  | _ => none

/-- serde array field. -/
def asArr : Option Json → Option (List Json)
  | some (Json.arr xs) => some xs
  | _ => none

/-- Deserialization of the `Error` payload (`res.json::<Error>()`). -/
def decodeError (j : Json) : Option Error :=
  match j with
  | Json.obj fields => do
      let code ← asI32 (getField fields "code")
      let message ← asStr (getField fields "message")
      pure ⟨code, message⟩
  | _ => none

/-- Deserialization of `Duration`. -/
def decodeDuration (j : Json) : Option Duration :=
  match j with
  | Json.obj fields => do
      let value ← asNum (getField fields "value")
      let text ← asStr (getField fields "text")
      pure ⟨value, text⟩
  | _ => none

/-- Deserialization of `Distance`. -/
def decodeDistance (j : Json) : Option Distance :=
  match j with
  | Json.obj fields => do
      let value ← asNum (getField fields "value")
      let text ← asStr (getField fields "text")
      pure ⟨value, text⟩
  | _ => none

/-- Deserialization of `Leg`. -/
def decodeLeg (j : Json) : Option Leg :=
  match j with
  | Json.obj fields => do
      let summary ← asStr (getField fields "summary")
      let dur ← (getField fields "duration").bind decodeDuration
      let dist ← (getField fields "distance").bind decodeDistance
      pure ⟨summary, dur, dist⟩
  | _ => none

/-- Deserialization of `Route`. -/
def decodeRoute (j : Json) : Option Route :=
  match j with
  | Json.obj fields => do
      let legsJson ← asArr (getField fields "legs")
      let legs ← legsJson.mapM decodeLeg
      pure ⟨legs⟩
  | _ => none

/-- Deserialization of `Routes` (`res.json::<Routes>()`). -/
def decodeRoutes (j : Json) : Option Routes :=
  match j with
  | Json.obj fields => do
      let routesJson ← asArr (getField fields "routes")
      let routes ← routesJson.mapM decodeRoute
      pure ⟨routes⟩
  | _ => none

/-- Deserialization of `PostalAddress` (`res.json::<PostalAddress>()`). -/
def decodePostalAddress (j : Json) : Option PostalAddress :=
  match j with
  | Json.obj fields => do
      let fa ← asStr (getField fields "formatted_address")
      let rn ← asStr (getField fields "route_name")
      let nb ← asOptStr (getField fields "neighbourhood")
      let city ← asStr (getField fields "city")
      let st ← asStr (getField fields "state")
      let pl ← asOptStr (getField fields "place")
      let mz ← asOptStr (getField fields "municipality_zone")
      let tz ← asBool (getField fields "in_traffic_zone")
      let oz ← asBool (getField fields "in_odd_even_zone")
      pure ⟨fa, rn, nb, city, st, pl, mz, tz, oz⟩
  | _ => none

/-- Outcome of an API call, after the HTTP round trip succeeded:
the decoded payload, a decoded service error, or a body that failed to
decode in its branch (in the source the last one propagates through `?`
as a reqwest decode error, distinct from the `Error` value). -/
inductive ApiResult (α : Type) where
  | ok : α → ApiResult α
  | serviceErr : Error → ApiResult α
  | decodeErr : ApiResult α
  deriving DecidableEq

/-- The numeric service-error code readable from an `ApiResult`. -/
def ApiResult.serviceCode {α : Type} : ApiResult α → Option Int
  | ApiResult.serviceErr e => some e.code
  | _ => none

/-- Status/decoding branch of `Client::route`: on non-success status decode
the body as `Error` and return it as the failure (a failed decode
propagates as a decoding error); on success decode the body as `Routes`. -/
def routeHandle (statusIsSuccess : Bool) (body : Json) : ApiResult Routes :=
  if !statusIsSuccess then
    match decodeError body with
    | some e => ApiResult.serviceErr e
    | none => ApiResult.decodeErr
  else
    match decodeRoutes body with
    | some r => ApiResult.ok r
    | none => ApiResult.decodeErr

/-- Status/decoding branch of `Client::reverse_geocode`: same shape as
`routeHandle` with `PostalAddress` as the success payload. -/
def reverseGeocodeHandle (statusIsSuccess : Bool) (body : Json) :
    ApiResult PostalAddress :=
  if !statusIsSuccess then
    match decodeError body with
    | some e => ApiResult.serviceErr e
    | none => ApiResult.decodeErr
  else
    match decodePostalAddress body with
    | some a => ApiResult.ok a
    | none => ApiResult.decodeErr

/-- The spec's common decoding contract, stated from its words: on success
status decode the success payload, otherwise decode the body as the
`\x7bcode, message\x7d` error and surface it as a failure, with a decode
failure in either branch surfaced as a decoding error.  Used to compare
`routeHandle` and `reverseGeocodeHandle` against one shared contract. -/
def specDecodingContract {α : Type} (dec : Json → Option α)
    (statusIsSuccess : Bool) (body : Json) : ApiResult α :=
  if statusIsSuccess then
    match dec body with
    | some a => ApiResult.ok a
    | none => ApiResult.decodeErr
  else
    match decodeError body with
    | some e => ApiResult.serviceErr e
    | none => ApiResult.decodeErr

/-- Validity of one character of a header value, mirroring the byte check
of `http::HeaderValue::from_str` (visible ASCII 32..126, horizontal tab,
or any byte at and above 128; UTF-8 continuation and lead bytes of
characters at and above U+0080 all lie in 128..255 and pass the byte
check, so the byte-level test is equivalent to this per-character one). -/
def headerCharValid (c : Char) : Bool :=
  decide ((32 ≤ c.toNat ∧ c.toNat ≠ 127) ∨ c.toNat = 9)

/-- Rust struct `Client`: holds the reqwest client configured with the
`Api-Key` default header (the part of its state the claims observe). -/
structure Client where
  api_key : String

/-- `Client::new`: builds the header map with
`HeaderValue::from_str(api_key).unwrap()`.  The `unwrap` panic on an
invalid header value is modelled as `none`: construction fails and no
`Client` value is produced. -/
def Client.new (api_key : String) : Option Client :=
  if api_key.data.all headerCharValid then some ⟨api_key⟩ else none

/-- C1: the claim says every `route` call carries the avoid-odd-even-zone
flag under the query key `avoid_odd_even_zone`; the code instead spells the
key `avoid_odd_event_zone`, contradicting its own doc comment and parameter
name.  At a concrete call the built query has no `avoid_odd_even_zone`
entry and carries the flag under the misspelled key. -/
theorem C1_route_query_misspells_avoid_odd_even_zone :
    (routeQuery VehicleType.Car ⟨"51.392684661470156", "35.731984409609694"⟩
      ⟨"50.953103738230396", "35.723680037006304"⟩ true true false).lookup
        "avoid_odd_even_zone" = none ∧
      (routeQuery VehicleType.Car ⟨"51.392684661470156", "35.731984409609694"⟩
        ⟨"50.953103738230396", "35.723680037006304"⟩ true true false).lookup
          "avoid_odd_event_zone" = some "true" := by
  decide

/-- C2: for every pair of `Point`s and every `VehicleType`, the query list
built by `route` contains exactly one `origin` and exactly one
`destination` parameter, each formatted as the point's latitude, a comma,
then its longitude (latitude first). -/
theorem C2_route_query_origin_destination
    (vehicle : VehicleType) (origin destination : Point)
    (atz aoez alt : Bool) :
    let q := routeQuery vehicle origin destination atz aoez alt
    q.countP (fun p => p.1 == "origin") = 1 ∧
      q.countP (fun p => p.1 == "destination") = 1 ∧
      q.lookup "origin" = some (origin.latitude ++ "," ++ origin.longitude) ∧
      q.lookup "destination" =
        some (destination.latitude ++ "," ++ destination.longitude) := by
  exact ⟨rfl, rfl, rfl, rfl⟩

/-- C3: when the HTTP status is not a success and the body decodes as the
`\x7bcode, message\x7d` payload, `route` fails with the service error
carrying that code and message, not with a decoding error. -/
theorem C3_nonsuccess_decodable_body_is_service_error
    (body : Json) (code : Int) (message : String)
    (h : decodeError body = some ⟨code, message⟩) :
    routeHandle false body = ApiResult.serviceErr ⟨code, message⟩ ∧
      routeHandle false body ≠ ApiResult.decodeErr := by
  simp [routeHandle, h]

/-- Witness for C3 at the canned body of the spec:
`\x7b"code":400,"message":"Invalid input"\x7d`. -/
theorem C3_witness :
    routeHandle false
        (Json.obj [("code", Json.num 400), ("message", Json.str "Invalid input")]) =
        ApiResult.serviceErr ⟨400, "Invalid input"⟩ ∧
      routeHandle false
        (Json.obj [("code", Json.num 400), ("message", Json.str "Invalid input")]) ≠
        ApiResult.decodeErr :=
  C3_nonsuccess_decodable_body_is_service_error
    (Json.obj [("code", Json.num 400), ("message", Json.str "Invalid input")])
    400 "Invalid input" rfl

/-- C4: every service error returned by `route` or `reverse_geocode` is the
distinguishable `serviceErr` outcome, and the remote `code` is readable
from it, so a caller can branch on the code. -/
theorem C4_service_error_is_distinguishable_and_exposes_code
    (body : Json) (e : Error) (h : decodeError body = some e) :
    routeHandle false body = ApiResult.serviceErr e ∧
      reverseGeocodeHandle false body = ApiResult.serviceErr e ∧
      (routeHandle false body).serviceCode = some e.code ∧
      (reverseGeocodeHandle false body).serviceCode = some e.code := by
  refine ⟨?_, ?_, ?_, ?_⟩ <;>
    simp [routeHandle, reverseGeocodeHandle, ApiResult.serviceCode, h]

/-- Witness for C4 at a concrete error body with code 429. -/
theorem C4_witness :
    routeHandle false
        (Json.obj [("code", Json.num 429), ("message", Json.str "Too many requests")]) =
        ApiResult.serviceErr ⟨429, "Too many requests"⟩ ∧
      reverseGeocodeHandle false
        (Json.obj [("code", Json.num 429), ("message", Json.str "Too many requests")]) =
        ApiResult.serviceErr ⟨429, "Too many requests"⟩ ∧
      (routeHandle false
        (Json.obj [("code", Json.num 429), ("message", Json.str "Too many requests")])).serviceCode =
        some (429 : Int) ∧
      (reverseGeocodeHandle false
        (Json.obj [("code", Json.num 429), ("message", Json.str "Too many requests")])).serviceCode =
        some (429 : Int) :=
  C4_service_error_is_distinguishable_and_exposes_code
    (Json.obj [("code", Json.num 429), ("message", Json.str "Too many requests")])
    ⟨429, "Too many requests"⟩ rfl

/-- C5: for every API key containing a character that is invalid in an HTTP
header value, `Client::new` fails at construction (the `unwrap` panics
before any request is built) and never yields a usable `Client`. -/
theorem C5_invalid_header_key_fails_construction
    (api_key : String)
    (h : ∃ c ∈ api_key.data, headerCharValid c = false) :
    Client.new api_key = none := by
  obtain ⟨c, hc, hv⟩ := h
  have hall : api_key.data.all headerCharValid = false := by
    rw [List.all_eq_false]
    exact ⟨c, hc, by simp [hv]⟩
  simp [Client.new, hall]

/-- Witness for C5 at a key containing a newline. -/
theorem C5_witness : Client.new "bad\nkey" = none :=
  C5_invalid_header_key_fails_construction "bad\nkey" (by decide)

/-- C6: on a success status whose body fails to decode as the expected
shape, both calls fail with a decoding error, and a success value is only
ever the decoded body, never a default-valued struct. -/
theorem C6_success_status_undecodable_body_is_decode_error (body : Json) :
    (decodeRoutes body = none → routeHandle true body = ApiResult.decodeErr) ∧
      (decodePostalAddress body = none →
        reverseGeocodeHandle true body = ApiResult.decodeErr) ∧
      (∀ r, routeHandle true body = ApiResult.ok r → decodeRoutes body = some r) ∧
      (∀ a, reverseGeocodeHandle true body = ApiResult.ok a →
        decodePostalAddress body = some a) := by
  refine ⟨fun h => by simp [routeHandle, h],
    fun h => by simp [reverseGeocodeHandle, h], fun r hr => ?_, fun a ha => ?_⟩
  · revert hr
    cases h : decodeRoutes body <;> simp [routeHandle, h]
  · revert ha
    cases h : decodePostalAddress body <;> simp [reverseGeocodeHandle, h]

/-- Witness for C6 at a malformed body (a bare string where an object with
a `routes` array is expected). -/
theorem C6_witness :
    routeHandle true (Json.str "oops") = ApiResult.decodeErr ∧
      reverseGeocodeHandle true (Json.str "oops") = ApiResult.decodeErr :=
  ⟨(C6_success_status_undecodable_body_is_decode_error (Json.str "oops")).1 rfl,
    (C6_success_status_undecodable_body_is_decode_error (Json.str "oops")).2.1 rfl⟩

/-- C7: a reverse-geocode body in which any of `neighbourhood`, `place`,
`municipality_zone` is entirely absent (each independently present or
absent, here selected by an `Option` and appended only when present)
decodes successfully, with `none` for exactly the absent fields — not an
empty string and not a failure. -/
theorem C7_absent_optional_fields_decode_to_none
    (fa rn city st : String) (tz oz : Bool) (nb pl mz : Option String) :
    decodePostalAddress (Json.obj
      ([("formatted_address", Json.str fa), ("route_name", Json.str rn),
        ("city", Json.str city), ("state", Json.str st),
        ("in_traffic_zone", Json.bool tz), ("in_odd_even_zone", Json.bool oz)]
        ++ (nb.map fun s => ("neighbourhood", Json.str s)).toList
        ++ (pl.map fun s => ("place", Json.str s)).toList
        ++ (mz.map fun s => ("municipality_zone", Json.str s)).toList)) =
      some ⟨fa, rn, nb, city, st, pl, mz, tz, oz⟩ := by
  cases nb <;> cases pl <;> cases mz <;> rfl

/-- C8: the string form of the vehicle type is exactly `"car"` for `Car`
and `"motorcycle"` for `Motorcycle`; the mapping is exhaustive over the
enumeration, and it is what the `type` query parameter carries. -/
theorem C8_vehicle_type_string_form :
    VehicleType.toStr VehicleType.Car = "car" ∧
      VehicleType.toStr VehicleType.Motorcycle = "motorcycle" ∧
      (∀ v : VehicleType, v = VehicleType.Car ∨ v = VehicleType.Motorcycle) ∧
      (∀ v o d atz aoez alt,
        (routeQuery v o d atz aoez alt).lookup "type" = some v.toStr) := by
  refine ⟨rfl, rfl, fun v => ?_, fun v o d atz aoez alt => rfl⟩
  cases v
  · exact Or.inl rfl
  · exact Or.inr rfl

/-- C9: `reverse_geocode` has the identical success/failure decoding
contract as `route`: both equal the one shared contract, instantiated with
their respective success decoders. -/
theorem C9_reverse_geocode_same_contract_as_route (s : Bool) (body : Json) :
    routeHandle s body = specDecodingContract decodeRoutes s body ∧
      reverseGeocodeHandle s body =
        specDecodingContract decodePostalAddress s body := by
  constructor
  · cases s
    · cases h : decodeError body <;> simp [routeHandle, specDecodingContract, h]
    · cases h : decodeRoutes body <;> simp [routeHandle, specDecodingContract, h]
  · cases s
    · cases h : decodeError body <;>
        simp [reverseGeocodeHandle, specDecodingContract, h]
    · cases h : decodePostalAddress body <;>
        simp [reverseGeocodeHandle, specDecodingContract, h]

/-- C10: the standard display form of a service error is exactly its
message — independent of the code — while the code appears in the debug
representation. -/
theorem C10_error_display_is_message (e : Error) (c : Int) :
    Error.display e = e.message ∧
      Error.display ⟨c, e.message⟩ = Error.display e ∧
      Error.debugFmt e =
        "AppError \x7b code: " ++ toString e.code ++ ", message: " ++
          e.message ++ " \x7d" :=
  ⟨rfl, rfl, rfl⟩

end Neshan
